import Mathlib

/-!
Verification of the dataset-preparation pipeline of `analysis.py`
(Social Media & Mental Health Analysis).

The pipeline (stages 1-5 of the script) is embedded shallowly:

* a raw table row is a `RawRecord` whose cells are `Option Cell`
  (`none` models a missing value / NaN in the loaded table);
* stage 1 (`df.dropna()`) drops rows with any missing cell;
* stage 2 (`df.drop_duplicates()`) collapses fully identical rows,
  keeping the first occurrence, as pandas does;
* stage 3 (`pd.to_numeric(df[col], errors="coerce")` over the five
  numeric columns) coerces cells to rationals, turning unparseable
  cells into `none`;
* stage 4 keeps rows with `Daily_Screen_Time_Hours <= 16` and
  `Sleep_Duration_Hours.between(2, 12)`; in pandas a comparison
  against NaN is false, so a missing cell is modelled as not kept;
* stage 5 (`pd.cut(..., bins=[0,2,5,8,16], labels=[...])`) adds the
  `Screen_Time_Category` column; `pd.cut` uses right-closed bins, so
  values are binned into (0,2], (2,5], (5,8], (8,16], anything else
  (including NaN) getting a missing label.

Real numbers of the table are modelled as rationals.
-/

namespace SMMH

/-- A non-missing cell of the raw table: either an already numeric value
or a string (pandas keeps a column holding any non-numeric entry as an
object column of Python values). -/
inductive Cell where
  | num (q : ℚ)
  | str (s : String)
deriving DecidableEq

/-- The four labels of `pd.cut(..., labels=["Low", "Moderate", "High", "Very High"])`. -/
inductive ScreenTimeLabel where
  | Low
  | Moderate
  | High
  | VeryHigh
deriving DecidableEq

/-- Value of a digit string read in base 10. -/
def digitsToNat (cs : List Char) : ℕ :=
  cs.foldl (fun acc c => 10 * acc + (c.toNat - 48)) 0

/-- Split a character list at its first dot, if any. -/
def splitFirstDot : List Char → Option (List Char × List Char)
  | [] => none
  | c :: cs =>
    if c = '.' then some ([], cs)
    else (splitFirstDot cs).map (fun p => (c :: p.1, p.2))

/-- Model of numeric parsing as performed by `pd.to_numeric(errors="coerce")`
on a decimal literal: an optional sign, an integer part and an optional
fractional part (at least one of the two parts non-empty). Anything else
fails to parse. -/
def parseRat (s : String) : Option ℚ :=
  let cs := s.toList
  let signBody : Bool × List Char :=
    match cs with
    | c :: rest =>
      if c = '-' then (true, rest)
      else if c = '+' then (false, rest)
      else (false, cs)
    | [] => (false, [])
  let mag : Option ℚ :=
    match splitFirstDot signBody.2 with
    | none =>
      if signBody.2 ≠ [] ∧ signBody.2.all Char.isDigit then
        some ((digitsToNat signBody.2 : ℚ))
      else none
    | some (w, f) =>
      if w.all Char.isDigit ∧ f.all Char.isDigit ∧ (w ≠ [] ∨ f ≠ []) then
        some ((digitsToNat w : ℚ) + (digitsToNat f : ℚ) / 10 ^ f.length)
      else none
  mag.map (fun q => if signBody.1 then -q else q)

/-- `pd.to_numeric(errors="coerce")` on one cell: numbers pass through,
strings are parsed, an unparseable string becomes the missing marker. -/
def toNumeric : Cell → Option ℚ
  | .num q => some q
  | .str s => parseRat s

/-- A row of the raw input table (columns of §3 of the data model;
`none` is a missing cell). -/
structure RawRecord where
  Age : Option Cell
  Daily_Screen_Time_Hours : Option Cell
  Sleep_Duration_Hours : Option Cell
  GAD_7_Score : Option Cell
  PHQ_9_Score : Option Cell
  Primary_Platform : Option String
  GAD_7_Severity : Option String
deriving DecidableEq

/-- A row after stage 3: the five numeric columns hold rationals
(`none` = NaN produced by coercion). -/
structure NumRecord where
  Age : Option ℚ
  Daily_Screen_Time_Hours : Option ℚ
  Sleep_Duration_Hours : Option ℚ
  GAD_7_Score : Option ℚ
  PHQ_9_Score : Option ℚ
  Primary_Platform : Option String
  GAD_7_Severity : Option String
deriving DecidableEq

/-- A row after stage 5: the derived `Screen_Time_Category` column has
been added (`none` = missing label). -/
structure CleanRecord extends NumRecord where
  Screen_Time_Category : Option ScreenTimeLabel
deriving DecidableEq

/-- A raw row contains no missing cell (`df.isnull()` is false everywhere
on the row). -/
def rawComplete (r : RawRecord) : Bool :=
  r.Age.isSome && r.Daily_Screen_Time_Hours.isSome &&
  r.Sleep_Duration_Hours.isSome && r.GAD_7_Score.isSome &&
  r.PHQ_9_Score.isSome && r.Primary_Platform.isSome &&
  r.GAD_7_Severity.isSome

/-- Stage 1: `df = df.dropna()`. -/
def stage1_dropna (l : List RawRecord) : List RawRecord :=
  l.filter rawComplete

/-- `drop_duplicates` keeps the first occurrence of each row; `seen`
accumulates the rows already emitted. -/
def dedupFirstAux {α : Type} [DecidableEq α] (seen : List α) : List α → List α
  | [] => []
  | x :: xs =>
    if x ∈ seen then dedupFirstAux seen xs
    else x :: dedupFirstAux (x :: seen) xs

/-- `df.drop_duplicates()`: collapse fully identical rows to their first
occurrence, preserving order. -/
def dedupFirst {α : Type} [DecidableEq α] (l : List α) : List α :=
  dedupFirstAux [] l

/-- Stage 2: `df = df.drop_duplicates()`. -/
def stage2_drop_duplicates (l : List RawRecord) : List RawRecord :=
  dedupFirst l

/-- Stage 3 on one row: `pd.to_numeric(df[col], errors="coerce")` for the
five numeric columns; the two string columns are untouched. -/
def coerceRecord (r : RawRecord) : NumRecord :=
  { Age := r.Age.bind toNumeric
    Daily_Screen_Time_Hours := r.Daily_Screen_Time_Hours.bind toNumeric
    Sleep_Duration_Hours := r.Sleep_Duration_Hours.bind toNumeric
    GAD_7_Score := r.GAD_7_Score.bind toNumeric
    PHQ_9_Score := r.PHQ_9_Score.bind toNumeric
    Primary_Platform := r.Primary_Platform
    GAD_7_Severity := r.GAD_7_Severity }

/-- Stage 3: the coercion loop over `numeric_cols`. -/
def stage3_to_numeric (l : List RawRecord) : List NumRecord :=
  l.map coerceRecord

/-- Stage 4 predicate:
`(df["Daily_Screen_Time_Hours"] <= 16) & (df["Sleep_Duration_Hours"].between(2, 12))`.
In pandas a comparison against NaN is false, hence the `false` branches on
missing cells. `between` is inclusive on both ends by default. -/
def inBounds (r : NumRecord) : Bool :=
  (match r.Daily_Screen_Time_Hours with
   | some v => decide (v ≤ 16)
   | none => false)
  &&
  (match r.Sleep_Duration_Hours with
   | some s => decide (2 ≤ s) && decide (s ≤ 12)
   | none => false)

/-- Stage 4: `df = df[(df[...] <= 16) & (df[...].between(2, 12))]`. -/
def stage4_bounds (l : List NumRecord) : List NumRecord :=
  l.filter inBounds

/-- `pd.cut(x, bins=[0, 2, 5, 8, 16], labels=["Low", "Moderate", "High", "Very High"])`
on one value: right-closed bins (0,2], (2,5], (5,8], (8,16]; values outside
every bin get a missing label. -/
def screenTimeCut (q : ℚ) : Option ScreenTimeLabel :=
  if 0 < q ∧ q ≤ 2 then some .Low
  else if 2 < q ∧ q ≤ 5 then some .Moderate
  else if 5 < q ∧ q ≤ 8 then some .High
  else if 8 < q ∧ q ≤ 16 then some .VeryHigh
  else none

/-- Stage 5 on one row: `df["Screen_Time_Category"] = pd.cut(df["Daily_Screen_Time_Hours"], ...)`;
`pd.cut` of NaN is NaN, hence the `bind`. -/
def addCategory (r : NumRecord) : CleanRecord :=
  { toNumRecord := r
    Screen_Time_Category := r.Daily_Screen_Time_Hours.bind screenTimeCut }

/-- Stage 5: the feature-engineering step. -/
def stage5_cut (l : List NumRecord) : List CleanRecord :=
  l.map addCategory

/-- The whole pipeline `prepare(raw_records) -> clean_records`:
stages 1 to 5 in the script's order. -/
def prepare (l : List RawRecord) : List CleanRecord :=
  stage5_cut (stage4_bounds (stage3_to_numeric (stage2_drop_duplicates (stage1_dropna l))))

/-- A clean row contains no missing value, the derived category column
included (what `df.dropna()` tests when the script is re-run on its own
output, whose table has the extra column). -/
def cleanComplete (r : CleanRecord) : Bool :=
  r.Age.isSome && r.Daily_Screen_Time_Hours.isSome &&
  r.Sleep_Duration_Hours.isSome && r.GAD_7_Score.isSome &&
  r.PHQ_9_Score.isSome && r.Primary_Platform.isSome &&
  r.GAD_7_Severity.isSome && r.Screen_Time_Category.isSome

/-- Stage 3 on a clean row: `pd.to_numeric` on an already numeric column
returns it unchanged (NaN staying NaN), modelled cell-wise by binding the
successful parse. -/
def coerceCleanRecord (r : CleanRecord) : CleanRecord :=
  { r with
    Age := r.Age.bind (fun q => some q)
    Daily_Screen_Time_Hours := r.Daily_Screen_Time_Hours.bind (fun q => some q)
    Sleep_Duration_Hours := r.Sleep_Duration_Hours.bind (fun q => some q)
    GAD_7_Score := r.GAD_7_Score.bind (fun q => some q)
    PHQ_9_Score := r.PHQ_9_Score.bind (fun q => some q) }

/-- Stage 4 predicate on a clean row (same two columns). -/
def inBoundsClean (r : CleanRecord) : Bool :=
  (match r.Daily_Screen_Time_Hours with
   | some v => decide (v ≤ 16)
   | none => false)
  &&
  (match r.Sleep_Duration_Hours with
   | some s => decide (2 ≤ s) && decide (s ≤ 12)
   | none => false)

/-- Stage 5 on a clean row: the assignment overwrites the existing
`Screen_Time_Category` column. -/
def recutClean (r : CleanRecord) : CleanRecord :=
  { r with Screen_Time_Category := r.Daily_Screen_Time_Hours.bind screenTimeCut }

/-- The pipeline run a second time, on its own output: the table now has
the `Screen_Time_Category` column, which participates in `dropna` and
`drop_duplicates`. -/
def prepareClean (l : List CleanRecord) : List CleanRecord :=
  (((dedupFirst (l.filter cleanComplete)).map coerceCleanRecord).filter inBoundsClean).map recutClean

/-! Concrete rows used by the end-to-end scenario of §8 of the spec and by
the witnesses: five raw rows where row 3 has a non-numeric age, row 4 is an
exact duplicate of row 1, and row 5 has screen time 20. -/

def rawRow1 : RawRecord :=
  ⟨some (.num 25), some (.num 3), some (.num 7), some (.num 5), some (.num 6),
   some "Instagram", some "Mild"⟩

def rawRow2 : RawRecord :=
  ⟨some (.num 30), some (.num 6), some (.num 8), some (.num 10), some (.num 11),
   some "TikTok", some "Moderate"⟩

def rawRow3 : RawRecord :=
  ⟨some (.str "abc"), some (.num 4), some (.num 6), some (.num 3), some (.num 2),
   some "YouTube", some "Minimal"⟩

def rawRow4 : RawRecord := rawRow1

def rawRow5 : RawRecord :=
  ⟨some (.num 22), some (.num 20), some (.num 7), some (.num 8), some (.num 9),
   some "X", some "Severe"⟩

def scenarioInput : List RawRecord :=
  [rawRow1, rawRow2, rawRow3, rawRow4, rawRow5]

/-- What the pipeline makes of row 1 (screen time 3 is binned as Moderate). -/
def out1 : CleanRecord :=
  ⟨⟨some 25, some 3, some 7, some 5, some 6, some "Instagram", some "Mild"⟩,
   some .Moderate⟩

/-- What the pipeline makes of row 2 (screen time 6 is binned as High). -/
def out2 : CleanRecord :=
  ⟨⟨some 30, some 6, some 8, some 10, some 11, some "TikTok", some "Moderate"⟩,
   some .High⟩

/-- What the pipeline makes of row 3: its unparseable age has been coerced
to the missing marker, and nothing later removes the row. -/
def out3 : CleanRecord :=
  ⟨⟨none, some 4, some 6, some 3, some 2, some "YouTube", some "Minimal"⟩,
   some .Moderate⟩

/-- Two raw rows identical in every column except the textual form of the
age cell; stage 3 coerces both cells to the number 1. -/
def dupA : RawRecord :=
  ⟨some (.str "1"), some (.num 3), some (.num 7), some (.num 5), some (.num 6),
   some "Instagram", some "Mild"⟩

def dupB : RawRecord :=
  ⟨some (.str "01"), some (.num 3), some (.num 7), some (.num 5), some (.num 6),
   some "Instagram", some "Mild"⟩

/-- The common image of `dupA` and `dupB` in the output. -/
def outDup : CleanRecord :=
  ⟨⟨some 1, some 3, some 7, some 5, some 6, some "Instagram", some "Mild"⟩,
   some .Moderate⟩

/-- A raw row whose screen time is exactly 0: it survives the whole
pipeline but receives no category label. -/
def zeroRow : RawRecord :=
  ⟨some (.num 25), some (.num 0), some (.num 7), some (.num 5), some (.num 6),
   some "Instagram", some "Mild"⟩

/-- The pipeline's output on `zeroRow`. -/
def zeroOut : CleanRecord :=
  ⟨⟨some 25, some 0, some 7, some 5, some 6, some "Instagram", some "Mild"⟩,
   none⟩

/-- A raw row with screen time 17, used for the stage-4 drop check. -/
def row17 : RawRecord :=
  ⟨some (.num 40), some (.num 17), some (.num 8), some (.num 4), some (.num 3),
   some "Facebook", some "Mild"⟩

/-- A stage-3 row whose screen-time cell was coerced to missing. -/
def missingNum : NumRecord :=
  ⟨some 25, none, some 7, some 5, some 6, some "Instagram", some "Mild"⟩

/-! Helper lemmas about first-occurrence de-duplication. -/

lemma dedupFirstAux_eq_self {α : Type} [DecidableEq α] :
    ∀ (l seen : List α), l.Nodup → (∀ x ∈ l, x ∉ seen) →
      dedupFirstAux seen l = l := by
  intro l
  induction l with
  | nil => intro seen _ _; rfl
  | cons x xs ih =>
    intro seen hnd hdisj
    have hx : x ∉ seen := hdisj x (List.mem_cons_self x xs)
    rw [dedupFirstAux, if_neg hx]
    congr 1
    refine ih (x :: seen) (List.nodup_cons.mp hnd).2 ?_
    intro y hy hmem
    rcases List.mem_cons.mp hmem with h | h
    · exact (List.nodup_cons.mp hnd).1 (h ▸ hy)
    · exact hdisj y (List.mem_cons_of_mem x hy) h

lemma dedupFirstAux_nodup_disjoint {α : Type} [DecidableEq α] :
    ∀ (l seen : List α),
      (dedupFirstAux seen l).Nodup ∧ ∀ x ∈ dedupFirstAux seen l, x ∉ seen := by
  intro l
  induction l with
  | nil => intro seen; simp [dedupFirstAux]
  | cons x xs ih =>
    intro seen
    by_cases hx : x ∈ seen
    · simpa [dedupFirstAux, hx] using ih seen
    · have h2 := ih (x :: seen)
      rw [dedupFirstAux, if_neg hx]
      refine ⟨List.nodup_cons.mpr ⟨?_, h2.1⟩, ?_⟩
      · intro hmem
        exact h2.2 x hmem (List.mem_cons_self x seen)
      · intro y hy
        rcases List.mem_cons.mp hy with rfl | hy2
        · exact hx
        · intro hseen
          exact h2.2 y hy2 (List.mem_cons_of_mem x hseen)

lemma dedupFirst_eq_self {α : Type} [DecidableEq α] (l : List α) (h : l.Nodup) :
    dedupFirst l = l :=
  dedupFirstAux_eq_self l [] h (fun x _ => List.not_mem_nil x)

lemma dedupFirst_nodup {α : Type} [DecidableEq α] (l : List α) :
    (dedupFirst l).Nodup :=
  (dedupFirstAux_nodup_disjoint l []).1

/-! Helper lemmas about the bounds filter and the pipeline's shape. -/

lemma inBounds_iff (n : NumRecord) :
    inBounds n = true ↔
      (∃ v, n.Daily_Screen_Time_Hours = some v ∧ v ≤ 16) ∧
        (∃ s, n.Sleep_Duration_Hours = some s ∧ 2 ≤ s ∧ s ≤ 12) := by
  rcases n with ⟨A, D, S, G, P, pf, sv⟩
  rcases D with _ | v <;> rcases S with _ | s <;> simp [inBounds]

lemma mem_prepare {l : List RawRecord} {r : CleanRecord} (h : r ∈ prepare l) :
    ∃ n, n ∈ stage4_bounds (stage3_to_numeric (stage2_drop_duplicates (stage1_dropna l))) ∧
      r = addCategory n := by
  unfold prepare stage5_cut at h
  rcases List.mem_map.mp h with ⟨n, hn, rfl⟩
  exact ⟨n, hn, rfl⟩

lemma optionBind_some_id (x : Option ℚ) : x.bind (fun q => some q) = x := by
  cases x <;> rfl

lemma coerceCleanRecord_eq (r : CleanRecord) : coerceCleanRecord r = r := by
  simp [coerceCleanRecord, optionBind_some_id]

lemma inBoundsClean_addCategory (n : NumRecord) :
    inBoundsClean (addCategory n) = inBounds n := rfl

lemma recutClean_addCategory (n : NumRecord) :
    recutClean (addCategory n) = addCategory n := rfl

lemma mem_prepare_inBoundsClean {l : List RawRecord} {r : CleanRecord}
    (h : r ∈ prepare l) : inBoundsClean r = true := by
  rcases mem_prepare h with ⟨n, hn, rfl⟩
  rw [inBoundsClean_addCategory]
  simp only [stage4_bounds] at hn
  exact (List.mem_filter.mp hn).2

/-! Characterization of the four bins of `pd.cut`. -/

lemma screenTimeCut_eq_Low (q : ℚ) :
    screenTimeCut q = some ScreenTimeLabel.Low ↔ 0 < q ∧ q ≤ 2 := by
  unfold screenTimeCut
  split_ifs with h1 h2 h3 h4 <;>
    constructor <;> intro h <;>
    first
    | exact h1
    | rfl
    | exact absurd h h1
    | exact absurd h h2
    | exact absurd h h3
    | exact absurd h h4
    | (exfalso; obtain ⟨ha, hb⟩ := h
       first
       | (obtain ⟨hc, hd⟩ := h1; linarith)
       | (obtain ⟨hc, hd⟩ := h2; linarith)
       | (obtain ⟨hc, hd⟩ := h3; linarith)
       | (obtain ⟨hc, hd⟩ := h4; linarith))
    | simp at h

lemma screenTimeCut_eq_Moderate (q : ℚ) :
    screenTimeCut q = some ScreenTimeLabel.Moderate ↔ 2 < q ∧ q ≤ 5 := by
  unfold screenTimeCut
  split_ifs with h1 h2 h3 h4 <;>
    constructor <;> intro h <;>
    first
    | exact h2
    | rfl
    | exact absurd h h1
    | exact absurd h h2
    | exact absurd h h3
    | exact absurd h h4
    | (exfalso; obtain ⟨ha, hb⟩ := h
       first
       | (obtain ⟨hc, hd⟩ := h1; linarith)
       | (obtain ⟨hc, hd⟩ := h2; linarith)
       | (obtain ⟨hc, hd⟩ := h3; linarith)
       | (obtain ⟨hc, hd⟩ := h4; linarith))
    | simp at h

lemma screenTimeCut_eq_High (q : ℚ) :
    screenTimeCut q = some ScreenTimeLabel.High ↔ 5 < q ∧ q ≤ 8 := by
  unfold screenTimeCut
  split_ifs with h1 h2 h3 h4 <;>
    constructor <;> intro h <;>
    first
    | exact h3
    | rfl
    | exact absurd h h1
    | exact absurd h h2
    | exact absurd h h3
    | exact absurd h h4
    | (exfalso; obtain ⟨ha, hb⟩ := h
       first
       | (obtain ⟨hc, hd⟩ := h1; linarith)
       | (obtain ⟨hc, hd⟩ := h2; linarith)
       | (obtain ⟨hc, hd⟩ := h3; linarith)
       | (obtain ⟨hc, hd⟩ := h4; linarith))
    | simp at h

lemma screenTimeCut_eq_VeryHigh (q : ℚ) :
    screenTimeCut q = some ScreenTimeLabel.VeryHigh ↔ 8 < q ∧ q ≤ 16 := by
  unfold screenTimeCut
  split_ifs with h1 h2 h3 h4 <;>
    constructor <;> intro h <;>
    first
    | exact h4
    | rfl
    | exact absurd h h1
    | exact absurd h h2
    | exact absurd h h3
    | exact absurd h h4
    | (exfalso; obtain ⟨ha, hb⟩ := h
       first
       | (obtain ⟨hc, hd⟩ := h1; linarith)
       | (obtain ⟨hc, hd⟩ := h2; linarith)
       | (obtain ⟨hc, hd⟩ := h3; linarith)
       | (obtain ⟨hc, hd⟩ := h4; linarith))
    | simp at h

lemma screenTimeCut_eq_none (q : ℚ) :
    screenTimeCut q = none ↔ ¬(0 < q ∧ q ≤ 16) := by
  unfold screenTimeCut
  split_ifs with h1 h2 h3 h4
  · simp only [Option.some_ne_none, false_iff, not_not]
    exact ⟨h1.1, by linarith [h1.2]⟩
  · simp only [Option.some_ne_none, false_iff, not_not]
    exact ⟨by linarith [h2.1], h2.2.trans (by norm_num)⟩
  · simp only [Option.some_ne_none, false_iff, not_not]
    exact ⟨by linarith [h3.1], h3.2.trans (by norm_num)⟩
  · simp only [Option.some_ne_none, false_iff, not_not]
    exact ⟨by linarith [h4.1], h4.2⟩
  · simp only [true_iff]
    rintro ⟨hq, h16⟩
    rcases le_or_lt q 2 with ha | ha
    · exact h1 ⟨hq, ha⟩
    · rcases le_or_lt q 5 with hb | hb
      · exact h2 ⟨ha, hb⟩
      · rcases le_or_lt q 8 with hc | hc
        · exact h3 ⟨hb, hc⟩
        · exact h4 ⟨hc, h16⟩

/-! The claims. -/

/-- Claim C1, counterexample: the spec says every output record has a
present value in all five numeric fields, but the output of `prepare` on
the scenario input contains a record whose age is missing (its raw age
cell was the unparseable string "abc", which survived stage 1 because it
was present, was coerced to missing in stage 3, and the stage-4 filter
never looks at the age column). -/
theorem scenario_output_has_missing_age :
    out3 ∈ prepare scenarioInput ∧ out3.Age = none := by decide

/-- Claim C1, amended: every record in the output of `prepare` has a
present value in `Daily_Screen_Time_Hours` and `Sleep_Duration_Hours`
(the two fields the stage-4 filter checks); the other three numeric
fields can be missing. -/
theorem prepare_screen_sleep_present :
    ∀ (l : List RawRecord) (r : CleanRecord), r ∈ prepare l →
      r.Daily_Screen_Time_Hours.isSome = true ∧ r.Sleep_Duration_Hours.isSome = true := by
  intro l r hr
  rcases mem_prepare hr with ⟨n, hn, rfl⟩
  simp only [stage4_bounds] at hn
  rcases (inBounds_iff n).mp (List.mem_filter.mp hn).2 with ⟨⟨v, hv, _⟩, ⟨s, hs, _⟩⟩
  constructor
  · show n.Daily_Screen_Time_Hours.isSome = true
    rw [hv]; rfl
  · show n.Sleep_Duration_Hours.isSome = true
    rw [hs]; rfl

/-- Claim C1, witness: the amended theorem applied to a concrete output
record of the scenario input. -/
theorem prepare_screen_sleep_present_witness :
    out1.Daily_Screen_Time_Hours.isSome = true ∧ out1.Sleep_Duration_Hours.isSome = true :=
  prepare_screen_sleep_present scenarioInput out1 (by decide)

/-- Claim C2, counterexample: on the five-row scenario input the pipeline
returns three rows, not the two the spec expects. -/
theorem scenario_output_not_two_rows :
    (prepare scenarioInput).length ≠ 2 := by decide

/-- Claim C2, amended: on the five-row scenario input `prepare` returns
exactly three rows: rows 1 and 2, and row 3, which survives with a
missing age because the bounds filter checks only screen time and sleep;
each surviving row carries the `Screen_Time_Category` label of its
screen-time value. -/
theorem scenario_output_three_rows :
    prepare scenarioInput = [out1, out2, out3] ∧
    out1.Screen_Time_Category = some ScreenTimeLabel.Moderate ∧
    out2.Screen_Time_Category = some ScreenTimeLabel.High ∧
    out3.Screen_Time_Category = some ScreenTimeLabel.Moderate ∧
    out1.Daily_Screen_Time_Hours.bind screenTimeCut = out1.Screen_Time_Category ∧
    out2.Daily_Screen_Time_Hours.bind screenTimeCut = out2.Screen_Time_Category ∧
    out3.Daily_Screen_Time_Hours.bind screenTimeCut = out3.Screen_Time_Category ∧
    out3.Age = none := by decide

/-- Claim C3, counterexample: two raw rows that differ only in the
textual form of one numeric cell ("1" against "01") both survive the
stage-2 duplicate elimination, and stage 3 then coerces them to the same
number — the final output contains two fully identical records. -/
theorem coercion_creates_identical_outputs :
    dupA ≠ dupB ∧ prepare [dupA, dupB] = [outDup, outDup] := by decide

/-- Claim C3, amended: exact duplicates are collapsed when the duplicate
elimination runs — after stage 2 no two surviving records are fully
identical — but stage-3 coercion can later make two distinct surviving
records identical, so the final output may contain identical records. -/
theorem drop_duplicates_nodup :
    ∀ l : List RawRecord, (stage2_drop_duplicates (stage1_dropna l)).Nodup := by
  intro l
  exact dedupFirst_nodup _

/-- Claim C4 (confirmed): the category derivation realizes exactly the
four half-open bins (0,2], (2,5], (5,8], (8,16]; 3 and 5 map to Moderate,
5.01 to High, 16 to Very High, 0 to no label, and a row with screen time
17 is dropped by the stage-4 bounds filter and never reaches stage 5. -/
theorem screenTimeCut_characterization :
    (∀ q : ℚ,
      (screenTimeCut q = some ScreenTimeLabel.Low ↔ 0 < q ∧ q ≤ 2) ∧
      (screenTimeCut q = some ScreenTimeLabel.Moderate ↔ 2 < q ∧ q ≤ 5) ∧
      (screenTimeCut q = some ScreenTimeLabel.High ↔ 5 < q ∧ q ≤ 8) ∧
      (screenTimeCut q = some ScreenTimeLabel.VeryHigh ↔ 8 < q ∧ q ≤ 16) ∧
      (screenTimeCut q = none ↔ ¬(0 < q ∧ q ≤ 16)))
    ∧ screenTimeCut 3 = some ScreenTimeLabel.Moderate
    ∧ screenTimeCut 5 = some ScreenTimeLabel.Moderate
    ∧ screenTimeCut (501 / 100) = some ScreenTimeLabel.High
    ∧ screenTimeCut 16 = some ScreenTimeLabel.VeryHigh
    ∧ screenTimeCut 0 = none
    ∧ stage4_bounds (stage3_to_numeric (stage2_drop_duplicates (stage1_dropna [row17]))) = []
    ∧ prepare [row17] = [] := by
  refine ⟨fun q => ⟨screenTimeCut_eq_Low q, screenTimeCut_eq_Moderate q,
    screenTimeCut_eq_High q, screenTimeCut_eq_VeryHigh q, screenTimeCut_eq_none q⟩,
    by decide, by decide, ?_, by decide, by decide, by decide, by decide⟩
  rw [screenTimeCut_eq_High]
  norm_num

/-- Claim C5, counterexample: a row with screen time exactly 0 survives
the pipeline with a missing category label, and a second run of the
pipeline on that output drops it at the missing-value stage — `prepare`
is not idempotent. -/
theorem prepare_not_idempotent :
    prepare [zeroRow] = [zeroOut] ∧ prepareClean (prepare [zeroRow]) = [] ∧
    prepareClean (prepare [zeroRow]) ≠ prepare [zeroRow] := by decide

/-- Claim C5, amended: running the pipeline on its own output returns the
output unchanged provided every output record has all fields present
(the derived category included) and no two output records are identical;
otherwise the second run may drop rows whose category or coerced numeric
fields are missing, or collapse identical records. -/
theorem prepare_idempotent_on_complete_nodup_output :
    ∀ l : List RawRecord,
      (∀ r ∈ prepare l, cleanComplete r = true) →
      (prepare l).Nodup →
      prepareClean (prepare l) = prepare l := by
  intro l hc hn
  unfold prepareClean
  rw [List.filter_eq_self.mpr hc]
  rw [dedupFirst_eq_self _ hn]
  rw [show coerceCleanRecord = id from funext coerceCleanRecord_eq, List.map_id]
  rw [List.filter_eq_self.mpr (fun r hr => mem_prepare_inBoundsClean hr)]
  have hmap : (prepare l).map recutClean = prepare l := by
    unfold prepare stage5_cut
    rw [List.map_map]
    apply List.map_congr_left
    intro n _
    exact recutClean_addCategory n
  exact hmap

/-- Claim C5, witness: the amended idempotence theorem applied to a
concrete input whose output is complete and duplicate-free. -/
theorem prepare_idempotent_witness :
    prepareClean (prepare [rawRow1, rawRow2]) = prepare [rawRow1, rawRow2] :=
  prepare_idempotent_on_complete_nodup_output [rawRow1, rawRow2] (by decide) (by decide)

/-- Claim C6 (confirmed): the stage-4 predicate keeps a record exactly
when its screen time is present and at most 16 and its sleep duration is
present and within [2, 12]; consequently every record in the output of
`prepare` satisfies both bounds. -/
theorem bounds_invariant :
    (∀ n : NumRecord,
        inBounds n = true ↔
          ((∃ v, n.Daily_Screen_Time_Hours = some v ∧ v ≤ 16) ∧
           (∃ s, n.Sleep_Duration_Hours = some s ∧ 2 ≤ s ∧ s ≤ 12)))
    ∧ (∀ (l : List RawRecord) (r : CleanRecord), r ∈ prepare l →
        (∃ v, r.Daily_Screen_Time_Hours = some v ∧ v ≤ 16) ∧
        (∃ s, r.Sleep_Duration_Hours = some s ∧ 2 ≤ s ∧ s ≤ 12)) := by
  refine ⟨inBounds_iff, ?_⟩
  intro l r hr
  rcases mem_prepare hr with ⟨n, hn, rfl⟩
  simp only [stage4_bounds] at hn
  exact (inBounds_iff n).mp (List.mem_filter.mp hn).2

/-- Claim C6, witness: the bounds invariant applied to a concrete output
record of the scenario input. -/
theorem bounds_invariant_witness :
    (∃ v, out2.Daily_Screen_Time_Hours = some v ∧ v ≤ 16) ∧
    (∃ s, out2.Sleep_Duration_Hours = some s ∧ 2 ≤ s ∧ s ≤ 12) :=
  bounds_invariant.2 scenarioInput out2 (by decide)

/-- Claim C7 (confirmed): a bounds comparison against a missing value
evaluates to not kept — the stage-4 predicate is false on any record
whose screen time or sleep duration is missing, so every record whose
relevant fields became missing during stage-3 coercion is excluded by
the filter. -/
theorem missing_comparisons_not_kept :
    (∀ n : NumRecord,
        n.Daily_Screen_Time_Hours = none ∨ n.Sleep_Duration_Hours = none →
        inBounds n = false)
    ∧ (∀ (l : List RawRecord) (n : NumRecord),
        n ∈ stage3_to_numeric (stage2_drop_duplicates (stage1_dropna l)) →
        n.Daily_Screen_Time_Hours = none ∨ n.Sleep_Duration_Hours = none →
        n ∉ stage4_bounds (stage3_to_numeric (stage2_drop_duplicates (stage1_dropna l)))) := by
  have h1 : ∀ n : NumRecord,
      n.Daily_Screen_Time_Hours = none ∨ n.Sleep_Duration_Hours = none →
      inBounds n = false := by
    intro n h
    rcases h with h | h <;> simp [inBounds, h]
  refine ⟨h1, ?_⟩
  intro l n _hmem3 h hmem
  simp only [stage4_bounds] at hmem
  have hb := (List.mem_filter.mp hmem).2
  rw [h1 n h] at hb
  exact Bool.false_ne_true hb

/-- Claim C7, witness: the predicate evaluated on a concrete record with
a missing screen-time field. -/
theorem missing_comparisons_not_kept_witness :
    inBounds missingNum = false :=
  missing_comparisons_not_kept.1 missingNum (Or.inl rfl)

/-- Claim C8 (confirmed): stage 3 is total and never drops a row — it
maps each row through the cell-wise coercion, preserving the row count —
and a cell whose string cannot be parsed as numeric becomes the missing
marker rather than an error. -/
theorem stage3_total_coercion :
    ∀ l : List RawRecord,
      (stage3_to_numeric l).length = l.length ∧
      (∀ i : ℕ, (stage3_to_numeric l)[i]? = (l[i]?).map coerceRecord) ∧
      (∀ s : String, parseRat s = none → toNumeric (Cell.str s) = none) := by
  intro l
  refine ⟨by simp [stage3_to_numeric], fun i => ?_, fun s h => ?_⟩
  · simp [stage3_to_numeric]
  · simp [toNumeric, h]

/-- Claim C8, witness: the coercion theorem applied to the unparseable
cell "abc". -/
theorem stage3_total_coercion_witness :
    toNumeric (Cell.str "abc") = none :=
  (stage3_total_coercion []).2.2 "abc" (by decide)

/-- Claim C9 (confirmed): stage 5 drops no record and modifies no
existing field — it preserves the row count, every prior column of every
row is unchanged, and the only addition is the derived category column,
computed from the row's screen time. -/
theorem stage5_frame_effect :
    ∀ l : List NumRecord,
      (stage5_cut l).length = l.length ∧
      (∀ i : ℕ, ((stage5_cut l)[i]?).map CleanRecord.toNumRecord = l[i]?) ∧
      (∀ i : ℕ, ((stage5_cut l)[i]?).map CleanRecord.Screen_Time_Category =
        (l[i]?).map (fun n => n.Daily_Screen_Time_Hours.bind screenTimeCut)) := by
  intro l
  refine ⟨by simp [stage5_cut], fun i => ?_, fun i => ?_⟩
  · rcases h : l[i]? with _ | n <;> simp [stage5_cut, h, addCategory]
  · rcases h : l[i]? with _ | n <;> simp [stage5_cut, h, addCategory]

/-- Claim C10 (confirmed): the stage-4 filter has no lower bound on
screen time — a complete row with negative screen time and in-range
sleep survives the whole pipeline and appears in the output with a
missing category label, exactly like the zero case. -/
theorem negative_screen_time_survives :
    ∀ (a v s g p : ℚ) (pf sv : String),
      v < 0 → 2 ≤ s → s ≤ 12 →
      prepare [⟨some (.num a), some (.num v), some (.num s), some (.num g), some (.num p),
                some pf, some sv⟩] =
        [⟨⟨some a, some v, some s, some g, some p, some pf, some sv⟩, none⟩] := by
  intro a v s g p pf sv hv hs1 hs2
  have h16 : v ≤ 16 := by linarith
  have c1 : ¬(0 < v ∧ v ≤ 2) := by rintro ⟨h, _⟩; linarith
  have c2 : ¬(2 < v ∧ v ≤ 5) := by rintro ⟨h, _⟩; linarith
  have c3 : ¬(5 < v ∧ v ≤ 8) := by rintro ⟨h, _⟩; linarith
  have c4 : ¬(8 < v ∧ v ≤ 16) := by rintro ⟨h, _⟩; linarith
  have hcut : screenTimeCut v = none := by
    unfold screenTimeCut
    rw [if_neg c1, if_neg c2, if_neg c3, if_neg c4]
  simp [prepare, stage1_dropna, rawComplete, stage2_drop_duplicates, dedupFirst,
        dedupFirstAux, stage3_to_numeric, coerceRecord, toNumeric, stage4_bounds,
        inBounds, stage5_cut, addCategory, hcut, h16, hs1, hs2, List.filter]

/-- Claim C10, witness: the theorem applied to a concrete row with
screen time -1. -/
theorem negative_screen_time_survives_witness :
    prepare [⟨some (.num 25), some (.num (-1)), some (.num 7), some (.num 5), some (.num 6),
              some "Instagram", some "Mild"⟩] =
      [⟨⟨some 25, some (-1), some 7, some 5, some 6, some "Instagram", some "Mild"⟩, none⟩] :=
  negative_screen_time_survives 25 (-1) 7 5 6 "Instagram" "Mild"
    (by norm_num) (by norm_num) (by norm_num)

end SMMH
